import Mathlib

/-!
Shallow embedding of the statsphere repository's ML scripts
(src/ml/features.py, src/ml/train.py, src/ml/predict.py,
src/backend/ml/train_ballondor.py, src/backend/ml/predict_ballondor.py)
together with theorems settling the spec's claims about them.

Python floats are modelled as rationals; Python exceptions as
Except String; JSON documents as an inductive Json type.
-/

namespace StatSphere

/-- JSON values as produced and consumed by Python's json module. -/
inductive Json where
  | null : Json
  | bool : Bool → Json
  | num : ℚ → Json
  | str : String → Json
  | arr : List Json → Json
  | obj : List (String × Json) → Json

/-- Key lookup in a JSON object (Python dict subscript or `.get` without
default); none when the value is not an object or the key is absent. -/
def Json.lookup : Json → String → Option Json
  | .obj kvs, k => kvs.lookup k
  | _, _ => none

/-- Python truthiness of a decoded JSON value: None, False, 0, "", [] and
empty dicts are falsy, everything else is truthy. -/
def pyTruthy : Json → Bool
  | .null => false
  | .bool b => b
  | .num q => q != 0
  | .str s => s != ""
  | .arr l => !l.isEmpty
  | .obj l => !l.isEmpty

/-- Python `d.get(k, default)`: on a dict it returns the value or the
default; on any non-dict value the attribute access raises. -/
def pyGet (v : Json) (k : String) (d : Json) : Except String Json :=
  match v with
  | .obj kvs => .ok ((kvs.lookup k).getD d)
  | _ => .error "AttributeError: get"

/-- Python `float(x)` on a decoded JSON value. Numbers and booleans
convert; conversion of strings and other values is not modelled (no claim
exercises it) and is conservatively an error, like `float(None)`. -/
def pyFloat : Json → Except String ℚ
  | .num q => .ok q
  | .bool b => .ok (if b then 1 else 0)
  | _ => .error "TypeError: float"

/-- Map a fallible function over a list, stopping at the first error, as a
Python for-loop that appends to an accumulator does. -/
def mapExcept {α β : Type} (f : α → Except String β) :
    List α → Except String (List β)
  | [] => .ok []
  | a :: l => do
    let b ← f a
    let r ← mapExcept f l
    pure (b :: r)

/-- A JSON array of strings read back as a Lean list of strings. -/
def asStrList : Json → Except String (List String)
  | .arr l => mapExcept (fun v => match v with
      | .str s => Except.ok s
      | _ => Except.error "TypeError: expected string") l
  | _ => .error "TypeError: expected list"

/-- Round a rational to the nearest integer, ties to even, as Python's
builtin round does. -/
def roundHalfEven (q : ℚ) : ℤ :=
  let f := ⌊q⌋
  let r := q - f
  if r < 1/2 then f
  else if 1/2 < r then f + 1
  else if f % 2 = 0 then f else f + 1

/-- Python `round(q, n)`: round to n decimal digits, ties to even. -/
def pyRound (n : ℕ) (q : ℚ) : ℚ :=
  (roundHalfEven (q * 10 ^ n) : ℚ) / 10 ^ n

/-- The fixed league-strength table from src/ml/features.py. -/
def LEAGUE_WEIGHTS : List (String × ℚ) :=
  [("Premier League", 1.0),
   ("La Liga", 0.95),
   ("Serie A", 0.9),
   ("Bundesliga", 0.9),
   ("Ligue 1", 0.85),
   ("Super Lig", 0.75),
   ("Saudi Pro League", 0.7)]

/-- get_league_weight from src/ml/features.py: table value when the league
is known, 0.8 otherwise. -/
def get_league_weight (league_name : String) : ℚ :=
  match LEAGUE_WEIGHTS.lookup league_name with
  | some w => w
  | none => 0.8

/-- calculate_goals_per_90 from src/ml/features.py. -/
def calculate_goals_per_90 (goals minutes_played : ℚ) : ℚ :=
  if minutes_played = 0 then 0
  else pyRound 2 (goals / minutes_played * 90)

/-- calculate_assists_per_90 from src/ml/features.py. -/
def calculate_assists_per_90 (assists minutes_played : ℚ) : ℚ :=
  if minutes_played = 0 then 0
  else pyRound 2 (assists / minutes_played * 90)

/-! Trainer, RandomForest variant: src/backend/ml/train_ballondor.py. -/

/-- The fixed feature-column list of src/backend/ml/train_ballondor.py. -/
def FEATURES : List String :=
  ["goals",
   "assists",
   "minutes",
   "avg_rating",
   "shots_on_target",
   "key_passes",
   "dribbles_completed",
   "tackles",
   "interceptions",
   "clean_sheets",
   "team_trophies",
   "ucl_stage_score",
   "league_strength"]

/-- The target column of src/backend/ml/train_ballondor.py. -/
def TARGET : String := "ballondor_score"

/-- sklearn.metrics.mean_absolute_error: mean of absolute errors. -/
def mean_absolute_error (yTrue yPred : List ℚ) : ℚ :=
  (((yTrue.zip yPred).map fun p => |p.1 - p.2|).sum) / yTrue.length

/-- sklearn.metrics.r2_score: 1 - SS_res / SS_tot, with sklearn's
convention for a constant target (1 on a perfect fit, else 0). -/
def r2_score (yTrue yPred : List ℚ) : ℚ :=
  let m := yTrue.sum / yTrue.length
  let ssRes := ((yTrue.zip yPred).map fun p => (p.1 - p.2) ^ 2).sum
  let ssTot := (yTrue.map fun y => (y - m) ^ 2).sum
  if ssTot == 0 then (if ssRes == 0 then 1 else 0) else 1 - ssRes / ssTot

/-- Content of a file a trainer writes: a serialized fitted model, a
pickled list of strings, a JSON document, or a CSV table. -/
inductive FileContent where
  | model : FileContent
  | pickledList : List String → FileContent
  | json : Json → FileContent
  | csv : FileContent

/-- The meta dict train_ballondor.py serializes to model/meta.json
(STEP 8), as a function of the held-out metrics, the row counts and the
training timestamp. -/
def train_ballondor_meta (mae r2 : ℚ) (train_rows test_rows total_rows : ℕ)
    (trained_at : String) : Json :=
  .obj [("features", .arr (FEATURES.map .str)),
        ("target", .str TARGET),
        ("metrics", .obj [("mae", .num (pyRound 4 mae)),
                          ("r2", .num (pyRound 4 r2))]),
        ("model_type", .str "RandomForestRegressor"),
        ("n_estimators", .num 100),
        ("max_depth", .num 10),
        ("train_rows", .num train_rows),
        ("test_rows", .num test_rows),
        ("total_rows", .num total_rows),
        ("trained_at", .str trained_at)]

/-- Files train_ballondor.py writes in STEPs 7-8: the pickled model at
model/ballondor_model.pkl and the meta JSON at model/meta.json, where mae
and r2 are the held-out metrics of STEP 5 computed from the test target
and the fitted model's per-row prediction function. -/
def train_ballondor_artifacts (predict : List ℚ → ℚ)
    (X_test : List (List ℚ)) (y_test : List ℚ)
    (train_rows test_rows total_rows : ℕ) (trained_at : String) :
    List (String × FileContent) :=
  let y_pred := X_test.map predict
  let mae := mean_absolute_error y_test y_pred
  let r2 := r2_score y_test y_pred
  [("model/ballondor_model.pkl", .model),
   ("model/meta.json",
    .json (train_ballondor_meta mae r2 train_rows test_rows total_rows trained_at))]

/-! Trainer, linear-regression variant: src/ml/train.py. -/

/-- The fixed feature-column list of src/ml/train.py (STEP 3). -/
def feature_columns : List String :=
  ["goals",
   "assists",
   "xG",
   "xA",
   "goals_per_90",
   "assists_per_90",
   "league_weight"]

/-- What one run of src/ml/train.py computes and persists: the two R²
scores of STEP 6 (model.score on the train and the test split, i.e.
r2_score of the target against the model's predictions) and the files of
STEPs 2 and 7: the processed CSV, the pickled model at model.pkl and the
pickled feature-column list at feature_columns.pkl. No other file is
written and no mean absolute error is computed anywhere in the script. -/
structure TrainPyRun where
  train_r2 : ℚ
  test_r2 : ℚ
  savedFiles : List (String × FileContent)

/-- src/ml/train.py, from the train/test split on: evaluates the fitted
model by R² on both splits and persists its artifacts. -/
def train_py_run (predict : List ℚ → ℚ)
    (X_train X_test : List (List ℚ)) (y_train y_test : List ℚ) : TrainPyRun :=
  { train_r2 := r2_score y_train (X_train.map predict)
    test_r2 := r2_score y_test (X_test.map predict)
    savedFiles :=
      [("data/processed/players_with_features.csv", .csv),
       ("model.pkl", .model),
       ("feature_columns.pkl", .pickledList feature_columns)] }

/-! Predictor, service-facing variant: src/backend/ml/predict_ballondor.py.
The script prints exactly one JSON document and exits; an uncaught Python
exception instead is an Except.error of the embedding. -/

/-- What one invocation of the service-facing predictor produces: the JSON
document printed to standard output and the process exit code. -/
structure RunResult where
  printed : Json
  exitCode : ℕ

/-- An error exit of predict_ballondor.py: print a one-key JSON error
object and exit with code 1. -/
def errorExit (msg : String) : RunResult :=
  ⟨.obj [("error", .str msg)], 1⟩

/-- FEATURES = meta["features"] in predict_ballondor.py (STEP 1): the
feature-name list read back from the loaded metadata document. -/
def metaFeatures (meta : Json) : Except String (List String) :=
  match meta.lookup "features" with
  | some v => asStrList v
  | none => .error "KeyError: features"

/-- STEP 3's inner loop for one player: row[feat] = float(player.get(feat,
0)) for each feat in FEATURES. The row dict keyed by the features and the
later DataFrame(rows, columns=FEATURES) amount to the vector in FEATURES
order. -/
def buildRow (features : List String) (player : Json) : Except String (List ℚ) :=
  mapExcept (fun feat => do
    let v ← pyGet player feat (.num 0)
    pyFloat v) features

/-- predict_ballondor.py end to end. Arguments stand for the script's
environment: whether the model and meta files exist, the parsed content of
meta.json, the loaded model's per-row prediction function (model.predict
maps it over the DataFrame rows), and the result of json.loads on standard
input. Except.error is an uncaught exception. -/
def predict_ballondor_main (modelExists metaExists : Bool) (meta : Json)
    (model : List ℚ → ℚ) (stdin : Except String Json) :
    Except String RunResult :=
  if !modelExists then
    .ok (errorExit "Model file not found. Run train_ballondor.py first.")
  else if !metaExists then
    .ok (errorExit "Meta file not found. Run train_ballondor.py first.")
  else do
    let FEATURESx ← metaFeatures meta
    match stdin with
    | .error e => .ok (errorExit ("Invalid JSON input: " ++ e))
    | .ok data => do
      let players ← pyGet data "players" (.arr [])
      if !pyTruthy players then
        .ok (errorExit "No players provided in input")
      else do
        let playerList ← match players with
          | .arr l => Except.ok l
          | _ => Except.error "TypeError: players not iterable"
        let rows ← mapExcept (buildRow FEATURESx) playerList
        let ids ← mapExcept (fun p => pyGet p "id" (.num 0)) playerList
        let predictions := rows.map model
        let results := (ids.zip predictions).map fun p =>
          Json.obj [("id", p.1), ("ml_score", .num (pyRound 2 p.2))]
        let output := Json.obj
          [("results", .arr results),
           ("meta", .obj
             [("model_type",
               (meta.lookup "model_type").getD (.str "RandomForestRegressor")),
              ("features_used", .arr (FEATURESx.map .str)),
              ("metrics", (meta.lookup "metrics").getD (.obj [])),
              ("trained_at", (meta.lookup "trained_at").getD (.str "unknown"))])]
        .ok ⟨output, 0⟩

/-! Predictor, console variant: src/ml/predict.py. Only the pipeline up to
model.predict matters to the claims; the ranked report and the CSV
consume its output. -/

/-- A pandas DataFrame: a column-name list and rows of cells aligned with
it. -/
structure DataFrame where
  cols : List String
  rows : List (List Json)

/-- Cell access row[c] on a DataFrame row: KeyError when the column is
absent. -/
def dfCell (df : DataFrame) (row : List Json) (c : String) : Except String Json :=
  match df.cols.findIdx? (· = c) with
  | some i => .ok (row.getD i .null)
  | none => .error ("KeyError: " ++ c)

/-- A numeric cell, as the arithmetic in features.py needs. -/
def dfNumCell (df : DataFrame) (row : List Json) (c : String) : Except String ℚ := do
  let v ← dfCell df row c
  pyFloat v

/-- add_features_to_dataframe from src/ml/features.py: appends the three
derived columns goals_per_90, assists_per_90 and league_weight, computed
per row from goals, assists, minutes_played and league. Membership test
on the league table with a non-string value is simply false in Python, so
a non-string league gets the 0.8 default. -/
def add_features_to_dataframe (df : DataFrame) : Except String DataFrame := do
  let rows ← mapExcept (fun row => do
    let goals ← dfNumCell df row "goals"
    let assists ← dfNumCell df row "assists"
    let minutes ← dfNumCell df row "minutes_played"
    let league ← dfCell df row "league"
    let lw : ℚ := match league with
      | .str s => get_league_weight s
      | _ => 0.8
    pure (row ++ [Json.num (calculate_goals_per_90 goals minutes),
                  Json.num (calculate_assists_per_90 assists minutes),
                  Json.num lw])) df.rows
  pure ⟨df.cols ++ ["goals_per_90", "assists_per_90", "league_weight"], rows⟩

/-- Column selection data[cols] in pandas: KeyError when any requested
column is missing from the frame. -/
def dfSelect (df : DataFrame) (cols : List String) : Except String DataFrame :=
  if cols.all (fun c => df.cols.contains c) then
    .ok ⟨cols, df.rows.map fun row => cols.map fun c =>
      match df.cols.findIdx? (· = c) with
      | some i => row.getD i .null
      | none => .null⟩
  else
    .error "KeyError: columns not in index"

/-- src/ml/predict.py STEPs 2-4: add the derived features, select the
trained feature columns, run the model over the rows. The predictions
feed the ranking and the CSV; an Except.error aborts the whole batch with
an uncaught exception and no prediction is produced for any record. -/
def predict_py (model : List ℚ → ℚ) (data : DataFrame) :
    Except String (List ℚ) := do
  let withFeatures ← add_features_to_dataframe data
  let X ← dfSelect withFeatures feature_columns
  let Xnum ← mapExcept (mapExcept pyFloat) X.rows
  pure (Xnum.map model)

/-! Small observations used to state the claims. -/

/-- Whether a JSON value is a number. -/
def Json.isNum : Json → Bool
  | .num _ => true
  | _ => false

/-- The numeric content of a JSON value, as float(player.get(feat, 0))
yields it on numeric or defaulted values. -/
def jnumD : Json → ℚ
  | .num q => q
  | .bool b => if b then 1 else 0
  | _ => 0

/-- Whether a persisted file's content is a JSON document. -/
def FileContent.isJsonFile : FileContent → Bool
  | .json _ => true
  | _ => false

/-- The exit code of a predictor invocation, none on an uncaught
exception. -/
def runExit : Except String RunResult → Option ℕ
  | .ok r => some r.exitCode
  | .error _ => none

/-- How many entries the "results" array of a predictor invocation's
printed JSON has, none on an error output or an uncaught exception. -/
def runResultCount : Except String RunResult → Option ℕ
  | .ok r =>
    match r.printed with
    | .obj (("results", .arr rs) :: _) => some rs.length
    | _ => none
  | .error _ => none

/-- A one-row input frame for the console predictor whose record has
name, team, league, goals, assists and minutes_played but no xG or xA
column. -/
def df0 : DataFrame :=
  ⟨["name", "team", "league", "goals", "assists", "minutes_played"],
   [[Json.str "Alice", Json.str "FC Example", Json.str "Premier League",
     Json.num 10, Json.num 5, Json.num 900]]⟩

/-! Helper lemmas about the embedding's plumbing. -/

theorem exbind_ok {α β : Type} (a : α) (f : α → Except String β) :
    (Except.ok a >>= f) = f a := rfl

theorem exbind_error {α β : Type} (e : String) (f : α → Except String β) :
    ((Except.error e : Except String α) >>= f) = Except.error e := rfl

theorem lookup_mem {β : Type} {l : List (String × β)} {a : String} {b : β}
    (h : l.lookup a = some b) : (a, b) ∈ l := by
  induction l with
  | nil => simp [List.lookup] at h
  | cons kv t ih =>
    rw [List.lookup] at h
    split at h
    · next heq =>
      obtain ⟨k, v⟩ := kv
      simp only [Option.some.injEq] at h
      subst h
      have ha : a = k := by simpa using heq
      subst ha
      exact List.mem_cons_self _ _
    · exact List.mem_cons_of_mem _ (ih h)

theorem mapExcept_length {α β : Type} {f : α → Except String β} :
    ∀ {l : List α} {r : List β}, mapExcept f l = .ok r → r.length = l.length := by
  intro l
  induction l with
  | nil => intro r h; simp [mapExcept] at h; simp [← h]
  | cons a t ih =>
    intro r h
    simp only [mapExcept] at h
    cases hfa : f a with
    | error e => rw [hfa] at h; rw [exbind_error] at h; exact absurd h (by simp)
    | ok b =>
      rw [hfa, exbind_ok] at h
      cases hrest : mapExcept f t with
      | error e => rw [hrest] at h; rw [exbind_error] at h; exact absurd h (by simp)
      | ok bs =>
        rw [hrest, exbind_ok] at h
        simp only [pure, Except.pure, Except.ok.injEq] at h
        subst h
        simp [ih hrest]

theorem mapExcept_ok_of_forall {α β : Type} {f : α → Except String β} :
    ∀ {l : List α}, (∀ a ∈ l, ∃ b, f a = .ok b) →
      ∃ r, mapExcept f l = .ok r ∧ r.length = l.length := by
  intro l
  induction l with
  | nil => intro _; exact ⟨[], rfl, rfl⟩
  | cons a t ih =>
    intro h
    obtain ⟨b, hb⟩ := h a (List.mem_cons_self _ _)
    obtain ⟨r, hr, hlen⟩ := ih fun x hx => h x (List.mem_cons_of_mem _ hx)
    refine ⟨b :: r, ?_, by simp [hlen]⟩
    simp only [mapExcept, hb, hr, exbind_ok]
    rfl

theorem buildRow_obj (features : List String) (kvs : List (String × Json))
    (hnum : ∀ kv ∈ kvs, kv.2.isNum = true) :
    buildRow features (Json.obj kvs)
      = .ok (features.map fun f => jnumD ((kvs.lookup f).getD (Json.num 0))) := by
  induction features with
  | nil => rfl
  | cons f fs ih =>
    have hg : (do let v ← pyGet (Json.obj kvs) f (Json.num 0); pyFloat v)
        = Except.ok (jnumD ((kvs.lookup f).getD (Json.num 0))) := by
      show pyFloat ((kvs.lookup f).getD (Json.num 0)) = _
      cases hlk : kvs.lookup f with
      | none => rfl
      | some v =>
        have hv := hnum (f, v) (lookup_mem hlk)
        cases v <;> simp_all [Json.isNum, pyFloat, jnumD]
    rw [buildRow, mapExcept, hg, exbind_ok]
    rw [buildRow] at ih
    rw [ih, exbind_ok]
    rfl

theorem main_success (meta : Json) (model : List ℚ → ℚ) (feats : List String)
    (data : Json) (ps : List Json) (rows : List (List ℚ)) (ids : List Json)
    (hmeta : metaFeatures meta = .ok feats)
    (hplayers : pyGet data "players" (.arr []) = .ok (Json.arr ps))
    (hne : ps ≠ [])
    (hrows : mapExcept (buildRow feats) ps = .ok rows)
    (hids : mapExcept (fun p => pyGet p "id" (.num 0)) ps = .ok ids) :
    predict_ballondor_main true true meta model (.ok data)
      = .ok ⟨Json.obj
          [("results", .arr (((ids.zip (rows.map model)).map fun pr =>
              Json.obj [("id", pr.1), ("ml_score", .num (pyRound 2 pr.2))]))),
           ("meta", .obj
             [("model_type", (meta.lookup "model_type").getD (.str "RandomForestRegressor")),
              ("features_used", .arr (feats.map .str)),
              ("metrics", (meta.lookup "metrics").getD (.obj [])),
              ("trained_at", (meta.lookup "trained_at").getD (.str "unknown"))])], 0⟩ := by
  simp [predict_ballondor_main, hmeta, exbind_ok, hplayers, pyTruthy, hne, hrows, hids]

/-! The claims. -/

/-- C3: rate-per-90 (calculate_goals_per_90 and calculate_assists_per_90)
returns 0 when minutes_played is 0 without signalling any error, and
otherwise (count / minutes_played) * 90 rounded to 2 decimals; with 10
goals and 900 minutes it returns 1.0. The functions are total, so no
error is possible. -/
theorem C3_rate_per_90 (count minutes : ℚ) :
    calculate_goals_per_90 count minutes
      = (if minutes = 0 then 0 else pyRound 2 (count / minutes * 90))
    ∧ calculate_assists_per_90 count minutes
      = (if minutes = 0 then 0 else pyRound 2 (count / minutes * 90))
    ∧ calculate_goals_per_90 10 900 = 1
    ∧ calculate_assists_per_90 10 900 = 1 := by
  refine ⟨rfl, rfl, ?_, ?_⟩
  · rw [calculate_goals_per_90]; norm_num [pyRound, roundHalfEven]
  · rw [calculate_assists_per_90]; norm_num [pyRound, roundHalfEven]

/-- C4: get_league_weight returns the table value for every league in
the fixed weight table, every table value lies in [0.7, 1.0], and any
league name outside the table gets 0.8. -/
theorem C4_league_weight :
    (∀ p ∈ LEAGUE_WEIGHTS, get_league_weight p.1 = p.2 ∧ 7/10 ≤ p.2 ∧ p.2 ≤ 1)
    ∧ ∀ name : String, name ∉ LEAGUE_WEIGHTS.map Prod.fst →
        get_league_weight name = 0.8 := by
  constructor
  · intro p hp
    fin_cases hp <;>
      refine ⟨by simp [get_league_weight, LEAGUE_WEIGHTS, List.lookup],
              by norm_num, by norm_num⟩
  · intro name h
    cases hlk : LEAGUE_WEIGHTS.lookup name with
    | none => simp [get_league_weight, hlk]
    | some w => exact absurd (List.mem_map_of_mem Prod.fst (lookup_mem hlk)) h

/-- Witness for C4 at the strongest known league and at an unknown
league name. -/
theorem C4_league_weight_witness :
    get_league_weight "Premier League" = 1.0 ∧ get_league_weight "Eliteserien" = 0.8 :=
  ⟨(C4_league_weight.1 ("Premier League", 1.0) (by norm_num [LEAGUE_WEIGHTS])).1,
   C4_league_weight.2 "Eliteserien" (by simp [LEAGUE_WEIGHTS])⟩

/-- C7: with the model file absent, or with the meta file absent, the
service-facing predictor prints a JSON error object and exits with code
1, whatever the metadata content, the model and the standard input are:
no prediction is attempted. -/
theorem C7_missing_artifact_errors (metaExists : Bool) (meta : Json)
    (model : List ℚ → ℚ) (stdin : Except String Json) :
    predict_ballondor_main false metaExists meta model stdin
      = .ok (errorExit "Model file not found. Run train_ballondor.py first.")
    ∧ predict_ballondor_main true false meta model stdin
      = .ok (errorExit "Meta file not found. Run train_ballondor.py first.")
    ∧ (errorExit "Model file not found. Run train_ballondor.py first.").exitCode = 1
    ∧ (errorExit "Meta file not found. Run train_ballondor.py first.").exitCode = 1 :=
  ⟨rfl, rfl, rfl, rfl⟩

/-- C9: the prediction step is a pure function of the model file's
presence, the meta file's presence and content, the loaded model and the
standard input: two runs on equal inputs print the same document and
exit with the same code. -/
theorem C9_idempotent (a b a2 b2 : Bool) (m m2 : Json) (f f2 : List ℚ → ℚ)
    (s s2 : Except String Json) (ha : a = a2) (hb : b = b2) (hm : m = m2)
    (hf : f = f2) (hs : s = s2) :
    predict_ballondor_main a b m f s = predict_ballondor_main a2 b2 m2 f2 s2 := by
  subst ha; subst hb; subst hm; subst hf; subst hs; rfl

/-- Witness for C9: two identical invocations on a one-player batch
agree. -/
theorem C9_idempotent_witness :
    predict_ballondor_main true true (train_ballondor_meta 1 1 8 2 10 "2024-01-01")
        (fun xs => xs.sum)
        (.ok (Json.obj [("players", Json.arr [Json.obj [("id", Json.num 1)]])]))
      = predict_ballondor_main true true (train_ballondor_meta 1 1 8 2 10 "2024-01-01")
        (fun xs => xs.sum)
        (.ok (Json.obj [("players", Json.arr [Json.obj [("id", Json.num 1)]])])) :=
  C9_idempotent _ _ _ _ _ _ _ _ _ _ rfl rfl rfl rfl rfl

theorem C1_feature_list_roundtrip (mae r2 : ℚ) (tr te tot : ℕ) (ts : String) :
    metaFeatures (train_ballondor_meta mae r2 tr te tot ts) = .ok FEATURES
    ∧ ∀ player row, buildRow FEATURES player = .ok row →
        row.length = FEATURES.length := by
  constructor
  · rfl
  · intro player row h
    rw [buildRow] at h
    exact mapExcept_length h

theorem C1_feature_list_roundtrip_witness :
    metaFeatures (train_ballondor_meta 1 1 8 2 10 "2024-01-01") = .ok FEATURES
    ∧ (List.replicate 13 (0:ℚ)).length = FEATURES.length :=
  ⟨(C1_feature_list_roundtrip 1 1 8 2 10 "2024-01-01").1,
   (C1_feature_list_roundtrip 1 1 8 2 10 "2024-01-01").2 (Json.obj [])
     (List.replicate 13 0) rfl⟩

theorem C6_invalid_json (meta : Json) (model : List ℚ → ℚ) (feats : List String)
    (e : String) (hmeta : metaFeatures meta = .ok feats) :
    predict_ballondor_main true true meta model (.error e)
      = .ok (errorExit ("Invalid JSON input: " ++ e))
    ∧ (errorExit ("Invalid JSON input: " ++ e)).printed
      = Json.obj [("error", Json.str ("Invalid JSON input: " ++ e))]
    ∧ (errorExit ("Invalid JSON input: " ++ e)).exitCode = 1 := by
  refine ⟨?_, rfl, rfl⟩
  simp [predict_ballondor_main, hmeta, exbind_ok]

theorem C6_invalid_json_witness :
    predict_ballondor_main true true (train_ballondor_meta 1 1 8 2 10 "2024-01-01")
        (fun xs => xs.sum) (.error "Expecting value: line 1 column 1 (char 0)")
      = .ok (errorExit "Invalid JSON input: Expecting value: line 1 column 1 (char 0)")
    ∧ (errorExit "Invalid JSON input: Expecting value: line 1 column 1 (char 0)").printed
      = Json.obj [("error", Json.str "Invalid JSON input: Expecting value: line 1 column 1 (char 0)")]
    ∧ (errorExit "Invalid JSON input: Expecting value: line 1 column 1 (char 0)").exitCode = 1 :=
  C6_invalid_json (train_ballondor_meta 1 1 8 2 10 "2024-01-01") (fun xs => xs.sum)
    FEATURES "Expecting value: line 1 column 1 (char 0)" rfl

theorem C8_empty_players (meta : Json) (model : List ℚ → ℚ) (feats : List String)
    (rest : List (String × Json)) (hmeta : metaFeatures meta = .ok feats) :
    predict_ballondor_main true true meta model
        (.ok (Json.obj (("players", Json.arr []) :: rest)))
      = .ok (errorExit "No players provided in input")
    ∧ errorExit "No players provided in input"
      = ⟨Json.obj [("error", Json.str "No players provided in input")], 1⟩ := by
  refine ⟨?_, rfl⟩
  simp [predict_ballondor_main, hmeta, exbind_ok, pyGet, List.lookup, pyTruthy]

theorem C8_empty_players_witness :
    predict_ballondor_main true true (train_ballondor_meta 1 1 8 2 10 "2024-01-01")
        (fun xs => xs.sum) (.ok (Json.obj [("players", Json.arr [])]))
      = .ok (errorExit "No players provided in input")
    ∧ errorExit "No players provided in input"
      = ⟨Json.obj [("error", Json.str "No players provided in input")], 1⟩ :=
  C8_empty_players (train_ballondor_meta 1 1 8 2 10 "2024-01-01") (fun xs => xs.sum)
    FEATURES [] rfl

theorem C10_players_missing_or_null (meta : Json) (model : List ℚ → ℚ)
    (feats : List String) (kvs : List (String × Json))
    (hmeta : metaFeatures meta = .ok feats) (hnokey : kvs.lookup "players" = none) :
    predict_ballondor_main true true meta model (.ok (Json.obj kvs))
      = .ok (errorExit "No players provided in input")
    ∧ predict_ballondor_main true true meta model
        (.ok (Json.obj (("players", Json.null) :: kvs)))
      = .ok (errorExit "No players provided in input")
    ∧ (errorExit "No players provided in input").exitCode = 1 := by
  refine ⟨?_, ?_, rfl⟩
  · simp [predict_ballondor_main, hmeta, exbind_ok, pyGet, hnokey, pyTruthy]
  · simp [predict_ballondor_main, hmeta, exbind_ok, pyGet, List.lookup, pyTruthy]

theorem C10_players_missing_or_null_witness :
    predict_ballondor_main true true (train_ballondor_meta 1 1 8 2 10 "2024-01-01")
        (fun xs => xs.sum) (.ok (Json.obj [("batch", Json.num 7)]))
      = .ok (errorExit "No players provided in input")
    ∧ predict_ballondor_main true true (train_ballondor_meta 1 1 8 2 10 "2024-01-01")
        (fun xs => xs.sum)
        (.ok (Json.obj [("players", Json.null), ("batch", Json.num 7)]))
      = .ok (errorExit "No players provided in input")
    ∧ (errorExit "No players provided in input").exitCode = 1 :=
  C10_players_missing_or_null (train_ballondor_meta 1 1 8 2 10 "2024-01-01")
    (fun xs => xs.sum) FEATURES [("batch", Json.num 7)] rfl (by simp [List.lookup])

/-- C5 amended: the RandomForest trainer evaluates the held-out split by
mean absolute error and R² and persists the model plus a full metadata
record (features, target, metrics, model type, hyperparameters,
timestamp); the linear-regression trainer evaluates R² only, on both
splits, and persists only the processed CSV, the model and the pickled
feature-column list, with no metadata record and no MAE. -/
theorem C5_trainer_persistence (p q : List ℚ → ℚ) (X_test Xtr Xte : List (List ℚ))
    (y_test ytr yte : List ℚ) (tr te tot : ℕ) (ts : String) (mae r2 : ℚ) :
    train_ballondor_artifacts p X_test y_test tr te tot ts
      = [("model/ballondor_model.pkl", FileContent.model),
         ("model/meta.json", FileContent.json
           (train_ballondor_meta (mean_absolute_error y_test (X_test.map p))
             (r2_score y_test (X_test.map p)) tr te tot ts))]
    ∧ (train_ballondor_meta mae r2 tr te tot ts).lookup "features"
        = some (.arr (FEATURES.map .str))
    ∧ (train_ballondor_meta mae r2 tr te tot ts).lookup "target" = some (.str TARGET)
    ∧ (train_ballondor_meta mae r2 tr te tot ts).lookup "metrics"
        = some (.obj [("mae", .num (pyRound 4 mae)), ("r2", .num (pyRound 4 r2))])
    ∧ (train_ballondor_meta mae r2 tr te tot ts).lookup "model_type"
        = some (.str "RandomForestRegressor")
    ∧ (train_ballondor_meta mae r2 tr te tot ts).lookup "n_estimators" = some (.num 100)
    ∧ (train_ballondor_meta mae r2 tr te tot ts).lookup "max_depth" = some (.num 10)
    ∧ (train_ballondor_meta mae r2 tr te tot ts).lookup "trained_at" = some (.str ts)
    ∧ (train_py_run q Xtr Xte ytr yte).train_r2 = r2_score ytr (Xtr.map q)
    ∧ (train_py_run q Xtr Xte ytr yte).test_r2 = r2_score yte (Xte.map q)
    ∧ (train_py_run q Xtr Xte ytr yte).savedFiles
        = [("data/processed/players_with_features.csv", FileContent.csv),
           ("model.pkl", FileContent.model),
           ("feature_columns.pkl", FileContent.pickledList feature_columns)]
    ∧ (train_py_run q Xtr Xte ytr yte).savedFiles.all
        (fun pc => !pc.2.isJsonFile) = true :=
  ⟨rfl, rfl, rfl, rfl, rfl, rfl, rfl, rfl, rfl, rfl, rfl, rfl⟩

/-- C5 counterexample: a run of the linear-regression trainer persists no
JSON document at all, so no metadata record with target name, metrics,
model type, timestamp and hyperparameters is written by that variant. -/
theorem C5_counterexample :
    ¬ ∃ pc, pc ∈ (train_py_run (fun _ => 0) [] [] [] []).savedFiles
        ∧ pc.2.isJsonFile = true := by
  rintro ⟨pc, hmem, hjson⟩
  simp [train_py_run] at hmem
  rcases hmem with h | h | h <;> subst h <;> simp [FileContent.isJsonFile] at hjson

/-- C2 amended: in the service-facing predictor, a feature absent from a
player record contributes 0 to the record's feature vector, the vector
follows the metadata feature list in order, and a nonempty batch of
records with numeric fields is fully predicted (exit 0, one result per
record) regardless of which features the records are missing. The console
variant is not covered: it aborts the whole batch when a raw feature
column is absent. -/
theorem C2_missing_fields (features : List String) (kvs : List (String × Json))
    (meta : Json) (model : List ℚ → ℚ) (feats : List String)
    (players : List (List (String × Json)))
    (hnum : ∀ kv ∈ kvs, kv.2.isNum = true)
    (hmeta : metaFeatures meta = .ok feats)
    (hne : players ≠ [])
    (hpnum : ∀ p ∈ players, ∀ kv ∈ p, kv.2.isNum = true) :
    buildRow features (Json.obj kvs)
      = .ok (features.map fun f => jnumD ((kvs.lookup f).getD (Json.num 0)))
    ∧ (∀ f ∈ features, kvs.lookup f = none →
        jnumD ((kvs.lookup f).getD (Json.num 0)) = 0)
    ∧ runExit (predict_ballondor_main true true meta model
        (.ok (Json.obj [("players", Json.arr (players.map Json.obj))]))) = some 0
    ∧ runResultCount (predict_ballondor_main true true meta model
        (.ok (Json.obj [("players", Json.arr (players.map Json.obj))])))
        = some players.length := by
  obtain ⟨rows, hrows, hrowlen⟩ :=
    mapExcept_ok_of_forall (f := buildRow feats) (l := players.map Json.obj)
      (by
        intro a ha
        obtain ⟨p, hp, rfl⟩ := List.mem_map.1 ha
        exact ⟨_, buildRow_obj feats p (hpnum p hp)⟩)
  obtain ⟨ids, hids, hidlen⟩ :=
    mapExcept_ok_of_forall (f := fun p => pyGet p "id" (Json.num 0))
      (l := players.map Json.obj)
      (by
        intro a ha
        obtain ⟨p, hp, rfl⟩ := List.mem_map.1 ha
        exact ⟨_, rfl⟩)
  have hmain := main_success meta model feats
    (Json.obj [("players", Json.arr (players.map Json.obj))])
    (players.map Json.obj) rows ids hmeta rfl (by simpa using hne) hrows hids
  refine ⟨buildRow_obj features kvs hnum, ?_, ?_, ?_⟩
  · intro f _ hf; rw [hf]; rfl
  · rw [hmain]; rfl
  · rw [hmain]
    simp [runResultCount, hidlen, hrowlen]

/-- C2 counterexample: the console predictor, given a frame whose record
has goals, assists, minutes_played and league but no xG column, raises a
KeyError on column selection and produces no prediction at all: a record
missing a raw feature field is rejected in that variant. -/
theorem C2_counterexample :
    predict_py (fun _ => 0) df0 = Except.error "KeyError: columns not in index" := rfl

/-- Witness for C2: a one-player batch carrying only id and goals flows
through the service-facing predictor with exit code 0 and one result, the
eleven other features defaulting to 0. -/
theorem C2_missing_fields_witness :
    buildRow FEATURES (Json.obj [("id", Json.num 1), ("goals", Json.num 10)])
      = .ok (FEATURES.map fun f =>
          jnumD ((([("id", Json.num 1), ("goals", Json.num 10)]
            : List (String × Json)).lookup f).getD (Json.num 0)))
    ∧ runExit (predict_ballondor_main true true
        (train_ballondor_meta 1 1 8 2 10 "2024-01-01") (fun xs => xs.sum)
        (.ok (Json.obj [("players", Json.arr
          ([[("id", Json.num 1), ("goals", Json.num 10)]].map Json.obj))])))
      = some 0
    ∧ runResultCount (predict_ballondor_main true true
        (train_ballondor_meta 1 1 8 2 10 "2024-01-01") (fun xs => xs.sum)
        (.ok (Json.obj [("players", Json.arr
          ([[("id", Json.num 1), ("goals", Json.num 10)]].map Json.obj))])))
      = some 1 :=
  have h := C2_missing_fields FEATURES [("id", Json.num 1), ("goals", Json.num 10)]
    (train_ballondor_meta 1 1 8 2 10 "2024-01-01") (fun xs => xs.sum) FEATURES
    [[("id", Json.num 1), ("goals", Json.num 10)]]
    (by intro kv hkv; fin_cases hkv <;> rfl) rfl (by simp)
    (by intro p hp kv hkv; fin_cases hp; fin_cases hkv <;> rfl)
  ⟨h.1, h.2.2.1, h.2.2.2⟩

end StatSphere
